import Mathlib

/-!
Shallow embedding of the `dhp_md` repository's data loading / cleaning module
(`src/data_processor.py`) and its query endpoints (`src/app.py`), together with
proofs settling the specification claims.

Modelling conventions:
* A pandas DataFrame over the listing schema is a `List` of row records, in file order.
* A CSV cell of a salary column is a `RawCell`: missing (NaN after `pd.read_csv`),
  a number (a numeric-looking cell, which `pd.read_csv` parses to a number), or a
  leftover non-numeric string.  Machine floats carry exact decimal values here, so
  salaries are modelled as `ℚ`; `NaN` is modelled as `Option.none`.
* A cell of a string column is `Option String` (`none` = NaN).
* pandas comparisons against NaN (`== x`, `> 0`, `>= v`) are `False`; the `Option`
  matches below encode exactly that.
* A Flask handler body wrapped in `try/except` is a total function into `ApiResult`:
  `ok` is the HTTP 200 JSON value, `error msg status` is the
  `jsonify({"error": msg}), status` branch.
-/

namespace DhpMd

/-- A raw cell of one of the salary columns as produced by `pd.read_csv`:
`missing` is NaN (empty cell), `num v` is a cell that parsed as a number,
`str s` is a present but non-numeric cell. -/
inductive RawCell where
  | missing : RawCell
  | num (v : ℚ) : RawCell
  | str (s : String) : RawCell
deriving DecidableEq, Repr

/-- One raw CSV row over the listing schema, before cleaning
(columns `Job Title`, `Company`, `Location`, `min_salary`, `max_salary`, `avg_salary`). -/
structure RawRow where
  jobTitle : Option String
  company : Option String
  location : Option String
  min_salary : RawCell
  max_salary : RawCell
  avg_salary : RawCell
deriving DecidableEq, Repr

/-- One cleaned row (a Listing) as produced by `load_data`.  Salary fields are
`Option ℚ` with `none` standing for NaN. -/
structure Listing where
  jobTitle : Option String
  company : Option String
  location : Option String
  min_salary : Option ℚ
  max_salary : Option ℚ
  avg_salary : Option ℚ
deriving DecidableEq, Repr

/-- `df.fillna({col: 0})` on a salary cell: NaN becomes 0, present cells unchanged. -/
def fillnaCell (c : RawCell) : RawCell :=
  match c with
  | .missing => .num 0
  | c => c

/-- `pd.to_numeric(df[col], errors="coerce")` on a salary cell: numbers stay,
non-numeric present cells coerce to NaN, NaN stays NaN. -/
def toNumericCell (c : RawCell) : Option ℚ :=
  match c with
  | .missing => none
  | .num v => some v
  | .str _ => none

/-- The masked assignment
`df.loc[(avg == 0) & (min > 0) & (max > 0), "avg_salary"] = (min + max) / 2`:
the mask is `False` on any NaN operand (pandas NaN-comparison semantics). -/
def deriveAvg (mn mx av : Option ℚ) : Option ℚ :=
  match mn, mx, av with
  | some m, some mM, some a =>
      if a = 0 ∧ 0 < m ∧ 0 < mM then some ((m + mM) / 2) else some a
  | _, _, av => av

/-- Python `str.strip()` (pandas `.str.strip()`) on one present cell: drop
whitespace from both ends. -/
def pyStrip (s : String) : String :=
  ⟨((s.data.dropWhile Char.isWhitespace).reverse.dropWhile Char.isWhitespace).reverse⟩

/-- `df["Location"].str.split(",").str[0]` on one present cell: the part of the
string before the first comma (the whole string when there is no comma), i.e.
the longest comma-free prefix. -/
def locationHead (s : String) : String :=
  ⟨s.data.takeWhile (fun c => c ≠ ',')⟩

/-- The cleaning pipeline of `load_data` applied to one row, in source order:
fillna on the three salary columns, `to_numeric` coercion, avg-salary derivation,
`Location` split, `Job Title` strip.  The pandas `.str` accessor propagates NaN,
hence the `Option.map` on the string columns. -/
def cleanRow (r : RawRow) : Listing :=
  let mn := toNumericCell (fillnaCell r.min_salary)
  let mx := toNumericCell (fillnaCell r.max_salary)
  let av := toNumericCell (fillnaCell r.avg_salary)
  { jobTitle := r.jobTitle.map pyStrip
    company := r.company
    location := r.location.map locationHead
    min_salary := mn
    max_salary := mx
    avg_salary := deriveAvg mn mx av }

/-- `load_data(file_path)` of `src/data_processor.py`.  The argument is the result
of `pd.read_csv`: `Except.error` when the read raises (missing file, malformed
CSV), `Except.ok rows` on success.  The surrounding `try/except` returns the
empty DataFrame on any failure; on success each row is cleaned in place. -/
def load_data (res : Except String (List RawRow)) : List Listing :=
  match res with
  | .error _ => []
  | .ok rows => rows.map cleanRow

/-- Distinct values of a column in first-occurrence order: the key order that a
pandas hash-table `value_counts`/`groupby` produces before any sorting. -/
def dedupFirst {α : Type} [DecidableEq α] : List α → List α
  | [] => []
  | x :: xs => x :: dedupFirst (xs.filter (fun y => y ≠ x))
termination_by l => l.length
decreasing_by
  simp only [List.length_cons]
  exact Nat.lt_succ_of_le (List.length_filter_le _ _)

/-- `series.value_counts()`: one `(value, count)` pair per distinct non-NaN value,
sorted by count descending; ties keep first-occurrence order (stable sort).
The caller passes the column already stripped of NaN (`List.filterMap` below),
matching `dropna=True`. -/
def value_counts {α : Type} [DecidableEq α] (l : List α) : List (α × Nat) :=
  ((dedupFirst l).map (fun x => (x, l.count x))).mergeSort (fun a b => b.2 ≤ a.2)

/-- `get_top_domains(df, limit)` of `src/data_processor.py`:
`df["Job Title"].value_counts().head(limit)`. -/
def get_top_domains (df : List Listing) (limit : Nat) : List (String × Nat) :=
  (value_counts (df.filterMap (fun r => r.jobTitle))).take limit

/-- The outcome of a Flask route handler: `ok` is the HTTP 200 payload,
`error msg status` is the `jsonify({"error": msg}), status` response produced
either explicitly (parameter validation) or by the `except` clause (status 500). -/
inductive ApiResult (α : Type) where
  | ok (v : α) : ApiResult α
  | error (msg : String) (status : Nat) : ApiResult α
deriving DecidableEq, Repr

/-- `series.mean()` with pandas NaN-skipping semantics: the arithmetic mean of
the non-NaN entries, NaN when there are none. -/
def nanMean (l : List (Option ℚ)) : Option ℚ :=
  let vs := l.filterMap id
  if vs.length = 0 then none else some (vs.sum / (vs.length : ℚ))

/-- `df.groupby("Job Title")["avg_salary"].mean()`: one `(title, mean)` pair per
distinct non-NaN job title; `groupby` sorts group keys ascending. -/
def groupbyAvgMean (df : List Listing) : List (String × Option ℚ) :=
  ((dedupFirst (df.filterMap (fun r => r.jobTitle))).mergeSort (fun a b => a ≤ b)).map
    (fun t => (t, nanMean ((df.filter (fun r => r.jobTitle == some t)).map
      (fun r => r.avg_salary))))

/-- The comparison of `.sort_values(ascending=False)` on a series that may hold
NaN: larger values first, NaN sorted last. -/
def valDescLe (a b : String × Option ℚ) : Bool :=
  match a.2, b.2 with
  | some x, some y => y ≤ x
  | some _, none => true
  | none, some _ => false
  | none, none => true

/-- `series.sort_values(ascending=False)` over `(key, value)` pairs. -/
def sortValuesDesc (l : List (String × Option ℚ)) : List (String × Option ℚ) :=
  l.mergeSort valDescLe

/-- The JSON record assembled by the `/api/key-insights` handler. -/
structure KeyInsights where
  top_paying_domain : String
  top_hiring_domain : String
  top_hiring_company : String
  top_location : String
  avg_internship_salary : Option ℚ
  total_companies : Nat
  total_domains : Nat
  total_listings : Nat
deriving DecidableEq, Repr

/-- `get_key_insights` of `src/app.py` (route `/api/key-insights`).  Each of the
four `.index[0]` lookups raises `IndexError` on an empty series (and the column
access itself raises `KeyError` on the empty DataFrame); the `except` clause
turns any such failure into a 500 error response.  The `head?` matches encode
those lookups. -/
def get_key_insights (df : List Listing) : ApiResult KeyInsights :=
  match (sortValuesDesc (groupbyAvgMean df)).head?,
        (value_counts (df.filterMap (fun r => r.jobTitle))).head?,
        (value_counts (df.filterMap (fun r => r.company))).head?,
        (value_counts (df.filterMap (fun r => r.location))).head? with
  | some tp, some th, some tc, some tl =>
      .ok { top_paying_domain := tp.1
            top_hiring_domain := th.1
            top_hiring_company := tc.1
            top_location := tl.1
            avg_internship_salary := nanMean (df.map (fun r => r.avg_salary))
            total_companies := (dedupFirst (df.filterMap (fun r => r.company))).length
            total_domains := (dedupFirst (df.filterMap (fun r => r.jobTitle))).length
            total_listings := df.length }
  | _, _, _, _ => .error "index 0 is out of bounds" 500

/-- Python truthiness of a `request.args.get` result: `None` and `""` are falsy. -/
def truthy : Option String → Bool
  | none => false
  | some s => s != ""

/-- Helper for `parseFloat`: whether every character is an ASCII digit. -/
def allDigits (cs : List Char) : Bool := cs.all Char.isDigit

/-- Helper for `parseFloat`: the natural number denoted by a digit list. -/
def digitsVal (cs : List Char) : Nat :=
  cs.foldl (fun n c => 10 * n + (c.toNat - 48)) 0

/-- Helper for `parseFloat`: an unsigned decimal literal, `digits`,
`digits.digits`, `digits.` or `.digits`. -/
def parseUnsigned (cs : List Char) : Option ℚ :=
  match cs.splitOn '.' with
  | [w] => if w ≠ [] ∧ allDigits w then some (digitsVal w : ℚ) else none
  | [w, f] =>
      if (w ≠ [] ∨ f ≠ []) ∧ allDigits w ∧ allDigits f then
        some ((digitsVal w : ℚ) + (digitsVal f : ℚ) / ((10 : ℚ) ^ f.length))
      else none
  | _ => none

/-- Python's `float(s)` on plain decimal literals: optional sign then an
unsigned decimal literal; any other string raises `ValueError`, modelled as
`none`.  (Python `float` additionally accepts surrounding whitespace,
underscores, `inf`/`nan` and exponents; none of those occur in the claims and
all strings the claims use parse the same way here.) -/
def parseFloat (s : String) : Option ℚ :=
  match s.data with
  | [] => none
  | '-' :: cs => (parseUnsigned cs).map (fun q => -q)
  | '+' :: cs => parseUnsigned cs
  | cs => parseUnsigned cs

/-- `filter_data` of `src/app.py` (route `/api/filter-data`).  The three
parameters are `request.args.get` results (`none` = absent).  A `domain` or
`location` that is truthy and not `"All"` filters by equality (pandas `==`
against NaN is `False`); a truthy `min_salary` is passed to `float(...)`, whose
`ValueError` is caught by the `except` clause as a 500 error; otherwise rows
with `avg_salary >= min_salary` are kept (`False` on NaN). -/
def filter_data (df : List Listing) (domain location min_salary : Option String) :
    ApiResult (List Listing) :=
  let f1 := match domain with
    | some d => if d != "" && d != "All" then df.filter (fun r => r.jobTitle == some d) else df
    | none => df
  let f2 := match location with
    | some l => if l != "" && l != "All" then f1.filter (fun r => r.location == some l) else f1
    | none => f1
  match min_salary with
  | some s =>
      if s != "" then
        match parseFloat s with
        | some v => .ok (f2.filter (fun r =>
            match r.avg_salary with
            | some a => v ≤ a
            | none => false))
        | none => .error ("could not convert string to float: " ++ s) 500
      else .ok f2
  | none => .ok f2

/-- The per-domain statistics block assembled by `compare_domains`. -/
structure DomainStats where
  name : String
  count : Nat
  avg_salary : Option ℚ
  min_salary : Option ℚ
  max_salary : Option ℚ
  top_companies : List (String × Nat)
  top_locations : List (String × Nat)
deriving DecidableEq, Repr

/-- The statistics `compare_domains` computes for one domain name. -/
def domainStats (df : List Listing) (d : String) : DomainStats :=
  let dd := df.filter (fun r => r.jobTitle == some d)
  { name := d
    count := dd.length
    avg_salary := nanMean (dd.map (fun r => r.avg_salary))
    min_salary := nanMean (dd.map (fun r => r.min_salary))
    max_salary := nanMean (dd.map (fun r => r.max_salary))
    top_companies := (value_counts (dd.filterMap (fun r => r.company))).take 5
    top_locations := (value_counts (dd.filterMap (fun r => r.location))).take 5 }

/-- `compare_domains` of `src/app.py` (route `/api/compare-domains`):
`if not domain1 or not domain2` returns the 400 error; otherwise both
statistics blocks are computed. -/
def compare_domains (df : List Listing) (domain1 domain2 : Option String) :
    ApiResult (DomainStats × DomainStats) :=
  if !(truthy domain1) || !(truthy domain2) then
    .error "Both domains are required for comparison" 400
  else
    .ok (domainStats df (domain1.getD ""), domainStats df (domain2.getD ""))

/-! ### Helper lemmas -/

/-- Membership passes from `dedupFirst l` back to `l`. -/
theorem mem_of_mem_dedupFirst {α : Type} [DecidableEq α] :
    ∀ (l : List α) (a : α), a ∈ dedupFirst l → a ∈ l := by
  intro l
  induction l using dedupFirst.induct with
  | case1 => intro a h; simp [dedupFirst] at h
  | case2 x xs ih =>
    intro a h
    rw [dedupFirst] at h
    rcases List.mem_cons.mp h with h1 | h2
    · exact h1 ▸ List.mem_cons_self _ _
    · exact List.mem_cons_of_mem _ (List.mem_of_mem_filter (ih a h2))

/-- Splitting a list into the occurrences of `x` and the rest preserves length. -/
theorem length_filter_ne_add_count {α : Type} [DecidableEq α] (x : α) (xs : List α) :
    (xs.filter (fun y => y ≠ x)).length + xs.count x = xs.length := by
  induction xs with
  | nil => simp
  | cons y ys ih =>
    by_cases h : y = x
    · subst h
      simp only [List.filter_cons]
      rw [if_neg (by simp), List.count_cons_self]
      simp only [List.length_cons]
      omega
    · simp only [List.filter_cons]
      rw [if_pos (by simp [h]), List.count_cons_of_ne (Ne.symm h)]
      simp only [List.length_cons]
      omega

/-- The multiplicities of the distinct values of a list sum to its length: the
counts of a `value_counts` table sum to the number of counted rows. -/
theorem sum_count_dedupFirst {α : Type} [DecidableEq α] :
    ∀ (l : List α), ((dedupFirst l).map (fun x => l.count x)).sum = l.length := by
  intro l
  induction l using dedupFirst.induct with
  | case1 => simp [dedupFirst]
  | case2 x xs ih =>
    rw [dedupFirst]
    simp only [List.map_cons, List.sum_cons]
    have hmap : (dedupFirst (xs.filter (fun y => y ≠ x))).map (fun y => (x :: xs).count y)
        = (dedupFirst (xs.filter (fun y => y ≠ x))).map
            (fun y => (xs.filter (fun z => z ≠ x)).count y) := by
      apply List.map_congr_left
      intro a ha
      have hmemf : a ∈ xs.filter (fun y => y ≠ x) := mem_of_mem_dedupFirst _ a ha
      have hax : a ≠ x := by
        have := List.of_mem_filter hmemf
        simpa using this
      rw [List.count_cons_of_ne hax, List.count_filter (by simpa using hax)]
    rw [hmap, ih, List.count_cons_self, List.length_cons]
    have := length_filter_ne_add_count x xs
    omega

/-- A prefix of a list of naturals sums to at most the whole list. -/
theorem sum_take_le_sum (l : List Nat) (n : Nat) : (l.take n).sum ≤ l.sum := by
  conv_rhs => rw [← List.take_append_drop n l]
  rw [List.sum_append]
  exact Nat.le_add_right _ _

/-- `takeWhile` of "not a comma" keeps a comma-free list whole. -/
theorem takeWhile_ne_comma (l : List Char) (h : ∀ c ∈ l, c ≠ ',') :
    l.takeWhile (fun c => c ≠ ',') = l := by
  induction l with
  | nil => rfl
  | cons c cs ih =>
    rw [List.takeWhile_cons, if_pos (by simp [h c (List.mem_cons_self c cs)]),
      ih (fun x hx => h x (List.mem_cons_of_mem _ hx))]

/-- The masked midpoint assignment leaves a NaN average untouched: the mask is
`False` when `avg_salary` is NaN. -/
theorem deriveAvg_none (mn mx : Option ℚ) : deriveAvg mn mx none = none := by
  cases mn <;> cases mx <;> rfl

/-- The masked midpoint assignment leaves a nonzero average untouched. -/
theorem deriveAvg_nonzero (mn mx : Option ℚ) (a : ℚ) (ha : a ≠ 0) :
    deriveAvg mn mx (some a) = some a := by
  cases mn <;> cases mx <;> simp [deriveAvg, ha]

/-- A zero average with both bounds positive becomes their midpoint. -/
theorem deriveAvg_zero_pos (m mM : ℚ) (hm : 0 < m) (hM : 0 < mM) :
    deriveAvg (some m) (some mM) (some 0) = some ((m + mM) / 2) := by
  simp [deriveAvg, hm, hM]

/-- A zero average stays zero unless both bounds are positive numbers. -/
theorem deriveAvg_zero_not_pos (mn mx : Option ℚ)
    (h : ¬ ∃ m mM, mn = some m ∧ mx = some mM ∧ 0 < m ∧ 0 < mM) :
    deriveAvg mn mx (some 0) = some 0 := by
  cases mn with
  | none => rfl
  | some m =>
    cases mx with
    | none => rfl
    | some mM =>
      simp only [deriveAvg]
      rw [if_neg]
      rintro ⟨h0, hm, hM⟩
      exact h ⟨m, mM, rfl, rfl, hm, hM⟩

/-- On a string of the form `a ++ "," ++ b` with `a` comma-free, `locationHead`
returns exactly `a`, whitespace included. -/
theorem locationHead_append (a b : String) (ha : ∀ c ∈ a.data, c ≠ ',') :
    locationHead (a ++ "," ++ b) = a := by
  unfold locationHead
  have hd : (a ++ "," ++ b).data = a.data ++ ',' :: b.data := by
    rw [String.data_append, String.data_append, List.append_assoc]
    rfl
  rw [hd, List.takeWhile_append, if_pos (by rw [takeWhile_ne_comma a.data ha])]
  rw [List.takeWhile_cons, if_neg (by simp), List.append_nil]

/-! ### Concrete rows used by the concrete theorems -/

/-- A raw row whose `min_salary` cell is present but non-numeric and whose
`Job Title` cell is missing. -/
def rowNonNumeric : RawRow :=
  { jobTitle := none, company := some "C", location := some "L",
    min_salary := RawCell.str "abc", max_salary := RawCell.num 20,
    avg_salary := RawCell.num 5 }

/-- The round-trip row of the specification: trailing space in the title,
comma-separated location, zero average salary with positive bounds. -/
def rowRoundTrip : RawRow :=
  { jobTitle := some "A ", company := some "Acme", location := some "X, Y",
    min_salary := RawCell.num 10, max_salary := RawCell.num 20,
    avg_salary := RawCell.num 0 }

/-- A raw row whose location has whitespace around the part before the comma. -/
def rowSpacedLoc : RawRow :=
  { jobTitle := some "T", company := some "C", location := some " X , Y",
    min_salary := RawCell.num 1, max_salary := RawCell.num 2,
    avg_salary := RawCell.num 3 }

/-! ### Claim theorems -/

/-- Claim C1, counterexample: on the empty Table, `get_key_insights` does not
return the success record with `total_listings = 0` and null/zero sentinels
everywhere; the handler's `except` clause turns the internal `IndexError`
into an error response instead. -/
theorem key_insights_empty_not_success :
    get_key_insights ([] : List Listing) ≠ ApiResult.ok
      { top_paying_domain := "", top_hiring_domain := "", top_hiring_company := "",
        top_location := "", avg_internship_salary := none, total_companies := 0,
        total_domains := 0, total_listings := 0 } := by
  simp [get_key_insights, sortValuesDesc, groupbyAvgMean, value_counts, dedupFirst]

/-- Claim C1, amended: on the empty Table, `get_key_insights` raises internally
(the `.index[0]` lookups are out of bounds) and returns the generic server
error response with status 500; it does not propagate the exception, but the
result is an error value, not the success record. -/
theorem key_insights_empty_returns_server_error :
    get_key_insights ([] : List Listing)
      = ApiResult.error "index 0 is out of bounds" 500 := by
  simp [get_key_insights, sortValuesDesc, groupbyAvgMean, value_counts, dedupFirst]

/-- Claim C2, counterexample: a row whose `min_salary` cell is present but
non-numeric loads with `min_salary = NaN` (`none`), and a missing `Job Title`
cell stays null — both against the claimed invariant. -/
theorem load_data_nonnumeric_salary_yields_nan :
    (load_data (Except.ok [rowNonNumeric])).map (fun r => (r.min_salary, r.jobTitle))
      = [(none, none)] := rfl

/-- Claim C2, amended: after loading, a missing `min_salary`/`max_salary` cell
becomes 0 and a numeric cell keeps its value, but a present non-numeric cell
becomes NaN (`none`) and stays NaN in the output.  For `avg_salary`, a present
non-numeric cell becomes NaN, a nonzero numeric cell keeps its value, and a
missing or zero cell becomes the midpoint of the loaded bounds when both are
positive numbers and stays 0 otherwise.  `job_title` is the raw cell stripped
of surrounding whitespace (null exactly when the raw cell is missing),
`company` is unchanged, and `location` is null exactly when the raw cell is
missing. -/
theorem load_data_salary_and_title_characterization (rows : List RawRow) (r : RawRow)
    (h : r ∈ rows) :
    cleanRow r ∈ load_data (Except.ok rows) ∧
    (r.min_salary = RawCell.missing → (cleanRow r).min_salary = some 0) ∧
    (∀ v, r.min_salary = RawCell.num v → (cleanRow r).min_salary = some v) ∧
    (∀ s, r.min_salary = RawCell.str s → (cleanRow r).min_salary = none) ∧
    (r.max_salary = RawCell.missing → (cleanRow r).max_salary = some 0) ∧
    (∀ v, r.max_salary = RawCell.num v → (cleanRow r).max_salary = some v) ∧
    (∀ s, r.max_salary = RawCell.str s → (cleanRow r).max_salary = none) ∧
    (∀ s, r.avg_salary = RawCell.str s → (cleanRow r).avg_salary = none) ∧
    (∀ a, r.avg_salary = RawCell.num a → a ≠ 0 → (cleanRow r).avg_salary = some a) ∧
    ((r.avg_salary = RawCell.missing ∨ r.avg_salary = RawCell.num 0) →
      (∀ m mM, (cleanRow r).min_salary = some m → (cleanRow r).max_salary = some mM →
        0 < m → 0 < mM → (cleanRow r).avg_salary = some ((m + mM) / 2)) ∧
      (¬(∃ m mM, (cleanRow r).min_salary = some m ∧ (cleanRow r).max_salary = some mM ∧
          0 < m ∧ 0 < mM) → (cleanRow r).avg_salary = some 0)) ∧
    (cleanRow r).jobTitle = r.jobTitle.map pyStrip ∧
    (cleanRow r).company = r.company ∧
    ((cleanRow r).location = none ↔ r.location = none) := by
  have key : (cleanRow r).avg_salary
      = deriveAvg ((cleanRow r).min_salary) ((cleanRow r).max_salary)
        (toNumericCell (fillnaCell r.avg_salary)) := rfl
  refine ⟨List.mem_map_of_mem _ h, ?_, ?_, ?_, ?_, ?_, ?_, ?_, ?_, ?_, rfl, rfl, ?_⟩
  · intro hm; simp [cleanRow, fillnaCell, toNumericCell, hm]
  · intro v hv; simp [cleanRow, fillnaCell, toNumericCell, hv]
  · intro s hs; simp [cleanRow, fillnaCell, toNumericCell, hs]
  · intro hm; simp [cleanRow, fillnaCell, toNumericCell, hm]
  · intro v hv; simp [cleanRow, fillnaCell, toNumericCell, hv]
  · intro s hs; simp [cleanRow, fillnaCell, toNumericCell, hs]
  · intro s hs
    rw [key]
    have hav : toNumericCell (fillnaCell r.avg_salary) = none := by
      simp [fillnaCell, toNumericCell, hs]
    rw [hav, deriveAvg_none]
  · intro a ha hne
    rw [key]
    have hav : toNumericCell (fillnaCell r.avg_salary) = some a := by
      simp [fillnaCell, toNumericCell, ha]
    rw [hav, deriveAvg_nonzero _ _ a hne]
  · intro havg
    have hav : toNumericCell (fillnaCell r.avg_salary) = some 0 := by
      rcases havg with h0 | h0 <;> simp [fillnaCell, toNumericCell, h0]
    constructor
    · intro m mM hm hM hmp hMp
      rw [key, hav, hm, hM, deriveAvg_zero_pos m mM hmp hMp]
    · intro hne
      rw [key, hav, deriveAvg_zero_not_pos _ _ hne]
  · cases hloc : r.location <;> simp [cleanRow, hloc]

/-- Witness for the amended claim C2, at the concrete row `rowNonNumeric`. -/
theorem load_data_salary_and_title_characterization_witness :
    rowNonNumeric ∈ [rowNonNumeric] ∧
    cleanRow rowNonNumeric ∈ load_data (Except.ok [rowNonNumeric]) :=
  ⟨by simp,
    (load_data_salary_and_title_characterization [rowNonNumeric] rowNonNumeric (by simp)).1⟩

/-- Claim C3, counterexample: `filter_data` with the non-numeric
`min_salary = "not-a-number"` returns the generic 500 server error (the
uncaught-in-route `ValueError` falls into the blanket `except`), not a 400
client error. -/
theorem filter_data_not_a_number_500 :
    filter_data ([] : List Listing) none none (some "not-a-number") =
      ApiResult.error "could not convert string to float: not-a-number" 500 := rfl

/-- Claim C3, amended: for every Table and every nonempty `min_salary` string
that does not parse as a number, `filter_data` fails, but the failure is
surfaced as the generic internal server error (HTTP 500), not as a client
error 400. -/
theorem filter_data_unparseable_min_salary_is_500 (df : List Listing)
    (domain location : Option String) (s : String)
    (h1 : s ≠ "") (h2 : parseFloat s = none) :
    filter_data df domain location (some s) =
      ApiResult.error ("could not convert string to float: " ++ s) 500 := by
  simp [filter_data, h2, bne_iff_ne, h1]

/-- Witness for the amended claim C3, at the string "not-a-number". -/
theorem filter_data_unparseable_min_salary_is_500_witness :
    ("not-a-number" ≠ "") ∧ parseFloat "not-a-number" = none ∧
    filter_data ([] : List Listing) none none (some "not-a-number") =
      ApiResult.error ("could not convert string to float: " ++ "not-a-number") 500 :=
  ⟨by decide, rfl,
    filter_data_unparseable_min_salary_is_500 [] none none "not-a-number" (by decide) rfl⟩

/-- Claim C4: when reading the CSV fails (the `pd.read_csv` call raises),
`load_data` returns the empty Table; being a total function it also does not
raise the failure to the caller. -/
theorem load_data_read_failure_returns_empty (e : String) :
    load_data (Except.error e) = [] := rfl

/-- Claim C5: for every Table and every `limit`, `get_top_domains` returns at
most `limit` entries, sorted non-increasing by count, and the counts of the
returned entries sum to at most the number of listings. -/
theorem get_top_domains_bounded_sorted_sum (df : List Listing) (limit : Nat) :
    (get_top_domains df limit).length ≤ limit ∧
    List.Pairwise (fun a b => b.2 ≤ a.2) (get_top_domains df limit) ∧
    ((get_top_domains df limit).map (fun p => p.2)).sum ≤ df.length := by
  refine ⟨List.length_take_le _ _, ?_, ?_⟩
  · have hs := @List.sorted_mergeSort (String × Nat)
      (fun a b : String × Nat => decide (b.2 ≤ a.2))
      (fun a b c hab hbc => by
        simp only [decide_eq_true_eq] at *
        exact Nat.le_trans hbc hab)
      (fun a b => by
        simp only [Bool.or_eq_true, decide_eq_true_eq]
        exact Nat.le_total b.2 a.2)
      ((dedupFirst (df.filterMap (fun r => r.jobTitle))).map
        (fun x => (x, (df.filterMap (fun r => r.jobTitle)).count x)))
    have hs' : List.Pairwise (fun a b : String × Nat => b.2 ≤ a.2)
        (value_counts (df.filterMap (fun r => r.jobTitle))) := by
      refine (hs.imp ?_)
      intro a b h
      simpa using h
    exact hs'.sublist (List.take_sublist _ _)
  · simp only [get_top_domains]
    rw [List.map_take]
    refine le_trans (sum_take_le_sum _ _) ?_
    have hperm : (value_counts (df.filterMap (fun r => r.jobTitle))).Perm
        ((dedupFirst (df.filterMap (fun r => r.jobTitle))).map
          (fun x => (x, (df.filterMap (fun r => r.jobTitle)).count x))) :=
      List.mergeSort_perm _ _
    have hsum := (hperm.map (fun p : String × Nat => p.2)).sum_eq
    rw [hsum, List.map_map]
    have hlen : ((dedupFirst (df.filterMap (fun r => r.jobTitle))).map
        ((fun p : String × Nat => p.2) ∘
          (fun x => (x, (df.filterMap (fun r => r.jobTitle)).count x)))).sum
        = (df.filterMap (fun r => r.jobTitle)).length := by
      have h2 := sum_count_dedupFirst (df.filterMap (fun r => r.jobTitle))
      simpa using h2
    rw [hlen]
    exact List.length_filterMap_le _ _

/-- Claim C6: loading the CSV row with title "A " (trailing space),
location "X, Y", salaries 10/20/0 yields the cleaned Listing with title "A",
location "X" and average salary 15, the midpoint of the bounds. -/
theorem load_data_round_trip :
    load_data (Except.ok [rowRoundTrip]) =
      [{ jobTitle := some "A", company := some "Acme", location := some "X",
         min_salary := some 10, max_salary := some 20, avg_salary := some 15 }] := by
  simp only [load_data, List.map_cons, List.map_nil]
  norm_num [cleanRow, rowRoundTrip, fillnaCell, toNumericCell, deriveAvg, Listing.mk.injEq]
  constructor
  · decide
  · decide

/-- Claim C7: `filter_data` with `domain = "All"` and no other parameters
returns the unfiltered Table unchanged, in the original order. -/
theorem filter_data_domain_all_identity (df : List Listing) :
    filter_data df (some "All") none none = ApiResult.ok df := by
  simp [filter_data]

/-- Claim C8: whenever either domain argument of `compare_domains` is absent or
falsy (the empty string), the handler returns the MissingParameter client
error with status 400. -/
theorem compare_domains_missing_parameter_400 (df : List Listing) (d1 d2 : Option String)
    (h : truthy d1 = false ∨ truthy d2 = false) :
    compare_domains df d1 d2 =
      ApiResult.error "Both domains are required for comparison" 400 := by
  rcases h with h | h <;> simp [compare_domains, h]

/-- Witness for claim C8, at `compare_domains("", "X")`. -/
theorem compare_domains_missing_parameter_400_witness :
    (truthy (some "") = false ∨ truthy (some "X") = false) ∧
    compare_domains ([] : List Listing) (some "") (some "X") =
      ApiResult.error "Both domains are required for comparison" 400 :=
  ⟨Or.inl (by decide),
    compare_domains_missing_parameter_400 [] (some "") (some "X") (Or.inl (by decide))⟩

/-- Claim C9, counterexample: the raw location " X , Y" loads as " X " — the
part before the first comma with its surrounding whitespace kept — not as the
trimmed "X" the claim states. -/
theorem cleaned_location_keeps_whitespace :
    (load_data (Except.ok [rowSpacedLoc])).map (fun r => r.location) = [some " X "] ∧
      (" X " : String) ≠ "X" := by
  refine ⟨by decide, by decide⟩

/-- Claim C9, amended: for every loaded row whose raw location splits as
`a ++ "," ++ b` with `a` comma-free, the cleaned location equals exactly `a`,
the portion before the first comma, with NO whitespace trimming. -/
theorem cleaned_location_untrimmed_before_first_comma (rows : List RawRow) (r : RawRow)
    (h : r ∈ rows) (a b : String)
    (hloc : r.location = some (a ++ "," ++ b)) (ha : ∀ c ∈ a.data, c ≠ ',') :
    cleanRow r ∈ load_data (Except.ok rows) ∧ (cleanRow r).location = some a := by
  refine ⟨List.mem_map_of_mem _ h, ?_⟩
  show r.location.map locationHead = some a
  rw [hloc, Option.map_some', locationHead_append a b ha]

/-- Witness for the amended claim C9, at the raw location " X , Y". -/
theorem cleaned_location_untrimmed_before_first_comma_witness :
    rowSpacedLoc ∈ [rowSpacedLoc] ∧
    rowSpacedLoc.location = some (" X " ++ "," ++ " Y") ∧
    (∀ c ∈ (" X " : String).data, c ≠ ',') ∧
    (cleanRow rowSpacedLoc ∈ load_data (Except.ok [rowSpacedLoc]) ∧
      (cleanRow rowSpacedLoc).location = some " X ") :=
  ⟨by simp, by decide, by decide,
    cleaned_location_untrimmed_before_first_comma [rowSpacedLoc] rowSpacedLoc
      (by simp) " X " " Y" (by decide) (by decide)⟩

/-- Claim C10: on a successfully read CSV, `load_data` keeps the number and
order of rows (the i-th output row is the cleaned i-th input row) and leaves
the `Company` column unchanged in every row. -/
theorem load_data_preserves_rows_and_company (rows : List RawRow) :
    (load_data (Except.ok rows)).length = rows.length ∧
    (load_data (Except.ok rows)).map (fun r => r.company) = rows.map (fun r => r.company) ∧
    ∀ i : Nat, (load_data (Except.ok rows))[i]? = (rows[i]?).map cleanRow := by
  refine ⟨by simp [load_data], ?_, ?_⟩
  · simp only [load_data, List.map_map]
    rfl
  · intro i
    simp [load_data, List.getElem?_map]

end DhpMd
